import Mathlib

/-
Verification of the smartcar token-broker service (src/server/index.js).

The service exposes two routes:
  GET  /exchange       : exchanges an authorization code for tokens, lists the
                         vehicles reachable with the access token, and upserts a
                         row keyed by the first vehicle id into table "vehicles".
  POST /refresh-token  : looks up the stored refresh token in table "vehicle"
                         (note: singular, a different table name than the one the
                         exchange path writes), exchanges it, and issues an UPDATE
                         against table "vehicles".

The embedding below models the database as two association tables (one per table
name occurring in the SQL of the source), the provider SDK as explicit function
arguments (oracles for exchangeCode, getVehicles, exchangeRefreshToken), and the
two route handlers as pure functions from the request, the current wall-clock
time in milliseconds, the oracles and the database state to a response, a new
state and a record of the side effects performed. Times are Nat milliseconds
since the epoch, matching Date.now(); the fixed expiry constant 7200000 ms is
the literal from the source.
-/

set_option autoImplicit false

namespace Smartcar

/-- A row of the token table (spec section 3, VehicleTokenRecord): the columns
access_token, refresh_token, expires_at stored by src/server/index.js. The
vehicle_id key is the first component of the table entries below. -/
structure VehicleTokenRecord where
  access_token : String
  refresh_token : String
  expires_at : Nat
  deriving DecidableEq

/-- A database table keyed by vehicle_id. -/
def Table : Type := List (String × VehicleTokenRecord)

instance : DecidableEq Table := by unfold Table; infer_instance

/-- Database state. The source names two distinct tables in its SQL: the
exchange route inserts into "vehicles" and the refresh route updates "vehicles",
but the refresh route reads from "vehicle" (singular). Both are modelled. -/
structure DB where
  vehicles : Table
  vehicle : Table
  deriving DecidableEq

/-- The empty database, the state before any request is served. -/
def DB.empty : DB := ⟨[], []⟩

/-- JavaScript truthiness test used by the guards `if (!code)` and
`if (!access.accessToken)`: a missing value and the empty string are falsy. -/
def isFalsy : Option String → Bool
  | none => true
  | some s => s.isEmpty

/-- SELECT ... WHERE vehicle_id = k: the first row of the table whose key is k. -/
def lookupTable : Table → String → Option VehicleTokenRecord
  | [], _ => none
  | p :: t, k => if p.1 = k then some p.2 else lookupTable t k

/-- The refresh route binds the body field vehicleId, which may be absent; the
driver turns an absent parameter into SQL NULL, and vehicle_id = NULL matches
no row. -/
def lookupKey (t : Table) : Option String → Option VehicleTokenRecord
  | none => none
  | some k => lookupTable t k

/-- INSERT ... ON CONFLICT (vehicle_id) DO UPDATE: replace the row keyed k if
present (the unique index admits at most one), otherwise append a new row. -/
def upsert : Table → String → VehicleTokenRecord → Table
  | [], k, r => [(k, r)]
  | p :: t, k, r => if p.1 = k then (k, r) :: t else p :: upsert t k r

/-- UPDATE ... SET ... WHERE vehicle_id = k: rewrite every row keyed k. -/
def updateTable (t : Table) (k : String) (r : VehicleTokenRecord) : Table :=
  t.map (fun p => if p.1 = k then (k, r) else p)

/-- Number of rows of the table keyed k. -/
def countKey : Table → String → Nat
  | [], _ => 0
  | p :: t, k => (if p.1 = k then 1 else 0) + countKey t k

/-- Result of client.exchangeCode: the destructured fields accessToken,
refreshToken, expiration. Only accessToken is guarded, so it is optional;
expiration is carried but never used by the handler. -/
structure AccessResponse where
  accessToken : Option String
  refreshToken : String
  expiration : Option Nat
  deriving DecidableEq

/-- Result of smartcar.getVehicles: an object whose vehicles field may be
absent or an arbitrary list of vehicle ids. -/
structure VehiclesResponse where
  vehicles : Option (List String)
  deriving DecidableEq

/-- Result of client.exchangeRefreshToken: the new token pair; the refresh
route uses it without any guard. -/
structure RefreshedTokens where
  accessToken : String
  refreshToken : String
  deriving DecidableEq

/-- Response bodies the two routes produce via res.json. -/
inductive Body where
  | errorBody (error : String)
  | exchangeOk (message vehicleId accessToken : String)
  | refreshOk (message accessToken : String)
  deriving DecidableEq

/-- An HTTP response: status code and JSON body. -/
structure HttpResponse where
  status : Nat
  body : Body
  deriving DecidableEq

/-- The fixed expiry window: the literal 7200000 ms (2 hours) from the source,
used as new Date(Date.now() + 7200000) on both routes. -/
def twoHoursMs : Nat := 7200000

/-- Outcome of one GET /exchange request: the response, the database state
afterwards, whether smartcar.getVehicles was called, and whether a database
write was issued. -/
structure ExchangeResult where
  resp : HttpResponse
  db : DB
  listVehiclesCalled : Bool
  dbWrite : Bool
  deriving DecidableEq

/-- Outcome of one POST /refresh-token request. -/
structure RefreshResult where
  resp : HttpResponse
  db : DB
  deriving DecidableEq

/-- The GET /exchange handler of src/server/index.js. Arguments: current time
in ms, the code query parameter, the two provider oracles, the database. -/
def exchangeHandler (now : Nat) (code : Option String)
    (exchangeCode : String → AccessResponse)
    (getVehicles : String → VehiclesResponse)
    (db : DB) : ExchangeResult :=
  if isFalsy code then
    ⟨⟨400, .errorBody "Missing authorization code"⟩, db, false, false⟩
  else
    let access := exchangeCode (code.getD "")
    if isFalsy access.accessToken then
      ⟨⟨401, .errorBody "Session expired. Please log in again."⟩, db, false, false⟩
    else
      let accessToken := access.accessToken.getD ""
      let vr := getVehicles accessToken
      match vr.vehicles with
      | none => ⟨⟨400, .errorBody "No vehicles found."⟩, db, true, false⟩
      | some [] => ⟨⟨400, .errorBody "No vehicles found."⟩, db, true, false⟩
      | some (vehicleId :: _) =>
        let row : VehicleTokenRecord := ⟨accessToken, access.refreshToken, now + twoHoursMs⟩
        ⟨⟨200, .exchangeOk "Successfully connected vehicle" vehicleId accessToken⟩,
         { db with vehicles := upsert db.vehicles vehicleId row },
         true, true⟩

/-- The POST /refresh-token handler of src/server/index.js. The lookup reads
table "vehicle" (singular, as the SELECT in the source is written) while the
UPDATE targets table "vehicles". -/
def refreshHandler (now : Nat) (vehicleId : Option String)
    (exchangeRefreshToken : String → RefreshedTokens)
    (db : DB) : RefreshResult :=
  match lookupKey db.vehicle vehicleId with
  | none => ⟨⟨404, .errorBody "Vehicle not found"⟩, db⟩
  | some stored =>
    let access := exchangeRefreshToken stored.refresh_token
    let row : VehicleTokenRecord := ⟨access.accessToken, access.refreshToken, now + twoHoursMs⟩
    ⟨⟨200, .refreshOk "Token refreshed successfully" access.accessToken⟩,
     { db with vehicles := updateTable db.vehicles (vehicleId.getD "") row }⟩

/-- Database states reachable by the service: the empty state, and any state
produced from a reachable one by serving one request on either route. -/
inductive Reachable : DB → Prop where
  | init : Reachable DB.empty
  | exch (db : DB) (now : Nat) (code : Option String)
      (f : String → AccessResponse) (g : String → VehiclesResponse) :
      Reachable db → Reachable (exchangeHandler now code f g db).db
  | refr (db : DB) (now : Nat) (v : Option String)
      (f : String → RefreshedTokens) :
      Reachable db → Reachable (refreshHandler now v f db).db

/-! Helper lemmas about the table operations. -/

theorem lookupTable_upsert_self (t : Table) (k : String) (r : VehicleTokenRecord) :
    lookupTable (upsert t k r) k = some r := by
  induction t with
  | nil => simp [upsert, lookupTable]
  | cons p t ih =>
    by_cases h : p.1 = k
    · simp [upsert, lookupTable, h]
    · simp [upsert, lookupTable, h, ih]

theorem countKey_nil (k : String) : countKey [] k = 0 := rfl

theorem countKey_cons (p : String × VehicleTokenRecord) (t : Table) (k : String) :
    countKey (p :: t) k = (if p.1 = k then 1 else 0) + countKey t k := rfl

theorem countKey_upsert_self (t : Table) (k : String) (r : VehicleTokenRecord)
    (h : countKey t k ≤ 1) : countKey (upsert t k r) k = 1 := by
  induction t with
  | nil =>
    rw [upsert, countKey_cons, countKey_nil, if_pos rfl]
  | cons p t ih =>
    rw [countKey_cons] at h
    by_cases hp : p.1 = k
    · rw [upsert, if_pos hp, countKey_cons, if_pos rfl]
      rw [if_pos hp] at h
      omega
    · rw [upsert, if_neg hp, countKey_cons, if_neg hp]
      rw [if_neg hp] at h
      rw [ih (by omega)]

theorem countKey_upsert_ne (t : Table) (k k' : String) (r : VehicleTokenRecord)
    (h : k' ≠ k) : countKey (upsert t k r) k' = countKey t k' := by
  induction t with
  | nil =>
    rw [upsert, countKey_cons, countKey_nil, if_neg (Ne.symm h)]
  | cons p t ih =>
    by_cases hp : p.1 = k
    · rw [upsert, if_pos hp, countKey_cons, countKey_cons, if_neg (Ne.symm h), hp,
        if_neg (Ne.symm h)]
    · rw [upsert, if_neg hp, countKey_cons, countKey_cons, ih]

theorem countKey_updateTable (t : Table) (k k' : String) (r : VehicleTokenRecord) :
    countKey (updateTable t k r) k' = countKey t k' := by
  induction t with
  | nil => rfl
  | cons p t ih =>
    by_cases hp : p.1 = k
    · show countKey ((if p.1 = k then (k, r) else p) :: updateTable t k r) k' = _
      rw [if_pos hp, countKey_cons, countKey_cons, ih, ← hp]
    · show countKey ((if p.1 = k then (k, r) else p) :: updateTable t k r) k' = _
      rw [if_neg hp, countKey_cons, countKey_cons, ih]

/-- Case analysis of the exchange handler on the database component: either the
state is unchanged (an error branch) or exactly one upsert was applied. -/
theorem exchangeHandler_db_cases (now : Nat) (code : Option String)
    (f : String → AccessResponse) (g : String → VehiclesResponse) (db : DB) :
    (exchangeHandler now code f g db).db = db ∨
    ∃ k r, (exchangeHandler now code f g db).db =
      { db with vehicles := upsert db.vehicles k r } := by
  cases hc : isFalsy code with
  | true => left; simp [exchangeHandler, hc]
  | false =>
    cases ha : isFalsy (f (code.getD "")).accessToken with
    | true => left; simp [exchangeHandler, hc, ha]
    | false =>
      cases hv : (g ((f (code.getD "")).accessToken.getD "")).vehicles with
      | none => left; simp [exchangeHandler, hc, ha, hv]
      | some l =>
        cases l with
        | nil => left; simp [exchangeHandler, hc, ha, hv]
        | cons v vs =>
          right
          refine ⟨v, ⟨(f (code.getD "")).accessToken.getD "",
            (f (code.getD "")).refreshToken, now + twoHoursMs⟩, ?_⟩
          simp [exchangeHandler, hc, ha, hv]

/-- Case analysis of the refresh handler on the database component: either the
state is unchanged (404 branch) or exactly one UPDATE was applied. -/
theorem refreshHandler_db_cases (now : Nat) (v : Option String)
    (f : String → RefreshedTokens) (db : DB) :
    (refreshHandler now v f db).db = db ∨
    ∃ k r, (refreshHandler now v f db).db =
      { db with vehicles := updateTable db.vehicles k r } := by
  cases hl : lookupKey db.vehicle v with
  | none => left; simp [refreshHandler, hl]
  | some stored =>
    right
    refine ⟨v.getD "", ⟨(f stored.refresh_token).accessToken,
      (f stored.refresh_token).refreshToken, now + twoHoursMs⟩, ?_⟩
    simp [refreshHandler, hl]

/-- Every reachable state has at most one row per vehicle_id in the vehicles
table. -/
theorem reachable_countKey_le_one (db : DB) (h : Reachable db) :
    ∀ k : String, countKey db.vehicles k ≤ 1 := by
  induction h with
  | init => intro k; rw [show DB.empty.vehicles = [] from rfl, countKey_nil]; omega
  | exch db now code f g _ ih =>
    intro k
    rcases exchangeHandler_db_cases now code f g db with heq | ⟨k', r, heq⟩
    · rw [heq]; exact ih k
    · rw [heq]
      by_cases hk : k = k'
      · subst hk
        rw [countKey_upsert_self db.vehicles k r (ih k)]
      · rw [countKey_upsert_ne db.vehicles k' k r hk]
        exact ih k
  | refr db now v f _ ih =>
    intro k
    rcases refreshHandler_db_cases now v f db with heq | ⟨k', r, heq⟩
    · rw [heq]; exact ih k
    · rw [heq, countKey_updateTable]
      exact ih k

/-! Claim theorems. -/

/-- Claim C5: a GET /exchange request without the code query parameter is
answered 400 with body error = "Missing authorization code", the database is
unchanged, and no write (and no vehicle listing) is performed. -/
theorem exchange_missing_code_400 (now : Nat) (f : String → AccessResponse)
    (g : String → VehiclesResponse) (db : DB) :
    exchangeHandler now none f g db =
      ⟨⟨400, .errorBody "Missing authorization code"⟩, db, false, false⟩ := rfl

/-- Claim C7: with a code present, if the provider exchange yields no usable
access token then GET /exchange answers 401 with the session-expired error,
the vehicle listing is never called, and no database write occurs. -/
theorem exchange_expired_session_401 (now : Nat) (code : Option String)
    (f : String → AccessResponse) (g : String → VehiclesResponse) (db : DB)
    (hc : isFalsy code = false)
    (ha : isFalsy (f (code.getD "")).accessToken = true) :
    exchangeHandler now code f g db =
      ⟨⟨401, .errorBody "Session expired. Please log in again."⟩, db, false, false⟩ := by
  simp [exchangeHandler, hc, ha]

/-- Witness for claim C7 at a concrete input. -/
theorem exchange_expired_session_401_witness :
    exchangeHandler 0 (some "CODE") (fun _ => ⟨none, "", none⟩)
        (fun _ => ⟨none⟩) DB.empty =
      ⟨⟨401, .errorBody "Session expired. Please log in again."⟩, DB.empty, false, false⟩ :=
  exchange_expired_session_401 0 (some "CODE") (fun _ => ⟨none, "", none⟩)
    (fun _ => ⟨none⟩) DB.empty rfl rfl

/-- Claim C8: with a code present and a successful token exchange, if the
vehicles field of the listing is absent or the empty list, GET /exchange
answers 400 with error = "No vehicles found." and performs no database write. -/
theorem exchange_no_vehicles_400 (now : Nat) (code : Option String)
    (f : String → AccessResponse) (g : String → VehiclesResponse) (db : DB)
    (hc : isFalsy code = false)
    (ha : isFalsy (f (code.getD "")).accessToken = false)
    (hv : (g ((f (code.getD "")).accessToken.getD "")).vehicles = none ∨
          (g ((f (code.getD "")).accessToken.getD "")).vehicles = some []) :
    exchangeHandler now code f g db =
      ⟨⟨400, .errorBody "No vehicles found."⟩, db, true, false⟩ := by
  rcases hv with hv | hv <;> simp [exchangeHandler, hc, ha, hv]

/-- Witness for claim C8 at a concrete input. -/
theorem exchange_no_vehicles_400_witness :
    exchangeHandler 0 (some "CODE") (fun _ => ⟨some "AT", "RT", none⟩)
        (fun _ => ⟨some []⟩) DB.empty =
      ⟨⟨400, .errorBody "No vehicles found."⟩, DB.empty, true, false⟩ :=
  exchange_no_vehicles_400 0 (some "CODE") (fun _ => ⟨some "AT", "RT", none⟩)
    (fun _ => ⟨some []⟩) DB.empty rfl rfl (Or.inr rfl)

/-- Claim C2: on the success path (code present, provider returns a usable
access token, listing returns a nonempty list), GET /exchange upserts a row
keyed by the first vehicle id holding the returned access and refresh tokens
and expires_at = now + 2 hours (7200000 ms, whatever expiration the provider
returned), and answers 200 with message "Successfully connected vehicle", the
vehicle id and the provider access token. -/
theorem exchange_success_200_upsert (now : Nat) (code : Option String)
    (f : String → AccessResponse) (g : String → VehiclesResponse) (db : DB)
    (v : String) (vs : List String)
    (hc : isFalsy code = false)
    (ha : isFalsy (f (code.getD "")).accessToken = false)
    (hv : (g ((f (code.getD "")).accessToken.getD "")).vehicles = some (v :: vs)) :
    exchangeHandler now code f g db =
      ⟨⟨200, .exchangeOk "Successfully connected vehicle" v
          ((f (code.getD "")).accessToken.getD "")⟩,
       { db with vehicles := (upsert db.vehicles v
          ⟨(f (code.getD "")).accessToken.getD "",
           (f (code.getD "")).refreshToken, now + twoHoursMs⟩) },
       true, true⟩ := by
  simp [exchangeHandler, hc, ha, hv]

/-- Witness for claim C2: the scenario of the spec, code VALIDCODE, tokens
AT1 and RT1, vehicle list [veh_123]. -/
theorem exchange_success_200_upsert_witness :
    exchangeHandler 0 (some "VALIDCODE") (fun _ => ⟨some "AT1", "RT1", some 99⟩)
        (fun _ => ⟨some ["veh_123"]⟩) DB.empty =
      ⟨⟨200, .exchangeOk "Successfully connected vehicle" "veh_123" "AT1"⟩,
       ⟨[("veh_123", ⟨"AT1", "RT1", twoHoursMs⟩)], []⟩, true, true⟩ :=
  exchange_success_200_upsert 0 (some "VALIDCODE")
    (fun _ => ⟨some "AT1", "RT1", some 99⟩) (fun _ => ⟨some ["veh_123"]⟩)
    DB.empty "veh_123" [] rfl rfl rfl

/-- Claim C9: on the success path of GET /exchange, the accessToken of the 200
response body equals the access_token persisted for the returned vehicle id,
and the vehicleId of the response is the key of the persisted row. -/
theorem exchange_response_matches_store (now : Nat) (code : Option String)
    (f : String → AccessResponse) (g : String → VehiclesResponse) (db : DB)
    (v : String) (vs : List String)
    (hc : isFalsy code = false)
    (ha : isFalsy (f (code.getD "")).accessToken = false)
    (hv : (g ((f (code.getD "")).accessToken.getD "")).vehicles = some (v :: vs)) :
    (exchangeHandler now code f g db).resp.body =
      .exchangeOk "Successfully connected vehicle" v
        ((f (code.getD "")).accessToken.getD "") ∧
    (lookupTable (exchangeHandler now code f g db).db.vehicles v).map
        VehicleTokenRecord.access_token =
      some ((f (code.getD "")).accessToken.getD "") := by
  constructor
  · simp [exchangeHandler, hc, ha, hv]
  · simp [exchangeHandler, hc, ha, hv, lookupTable_upsert_self]

/-- Witness for claim C9 at a concrete input. -/
theorem exchange_response_matches_store_witness :
    (exchangeHandler 0 (some "VALIDCODE") (fun _ => ⟨some "AT1", "RT1", none⟩)
        (fun _ => ⟨some ["veh_123"]⟩) DB.empty).resp.body =
      .exchangeOk "Successfully connected vehicle" "veh_123" "AT1" ∧
    (lookupTable (exchangeHandler 0 (some "VALIDCODE")
        (fun _ => ⟨some "AT1", "RT1", none⟩) (fun _ => ⟨some ["veh_123"]⟩)
        DB.empty).db.vehicles "veh_123").map VehicleTokenRecord.access_token =
      some "AT1" :=
  exchange_response_matches_store 0 (some "VALIDCODE")
    (fun _ => ⟨some "AT1", "RT1", none⟩) (fun _ => ⟨some ["veh_123"]⟩)
    DB.empty "veh_123" [] rfl rfl rfl

/-- Claim C6: a POST /refresh-token request for a vehicle id with no stored
record (in neither of the two tables the source names) is answered 404 with
error = "Vehicle not found" and leaves the database unchanged. -/
theorem refresh_unknown_vehicle_404 (now : Nat) (v : Option String)
    (f : String → RefreshedTokens) (db : DB)
    (h1 : lookupKey db.vehicle v = none)
    (_h2 : lookupKey db.vehicles v = none) :
    refreshHandler now v f db = ⟨⟨404, .errorBody "Vehicle not found"⟩, db⟩ := by
  simp [refreshHandler, h1]

/-- Witness for claim C6: the scenario of the spec, vehicleId unknown. -/
theorem refresh_unknown_vehicle_404_witness :
    refreshHandler 0 (some "unknown") (fun _ => ⟨"A", "R"⟩) DB.empty =
      ⟨⟨404, .errorBody "Vehicle not found"⟩, DB.empty⟩ :=
  refresh_unknown_vehicle_404 0 (some "unknown") (fun _ => ⟨"A", "R"⟩)
    DB.empty rfl rfl

/-- Claim C10: POST /refresh-token performs no input validation: for every
body (vehicleId present or absent) the handler goes straight to the lookup and
answers either 404 or 200, never a 400 validation error; an absent vehicleId
in particular yields 404 with the state unchanged. (The remaining 500 outcome
of the route arises only from runtime failures of the driver or the SDK,
which this pure model does not produce.) -/
theorem refresh_no_validation_never_400 (now : Nat) (v : Option String)
    (f : String → RefreshedTokens) (db : DB) :
    ((refreshHandler now v f db).resp.status = 404 ∨
     (refreshHandler now v f db).resp.status = 200) ∧
    refreshHandler now none f db = ⟨⟨404, .errorBody "Vehicle not found"⟩, db⟩ := by
  constructor
  · cases hl : lookupKey db.vehicle v with
    | none => left; simp [refreshHandler, hl]
    | some stored => right; simp [refreshHandler, hl]
  · rfl

/-- Claim C1 (the table-name defect): a successful GET /exchange persists the
vehicle veh_123 (in table "vehicles"), yet the immediately following
POST /refresh-token for that same vehicle id answers 404, because its SELECT
reads table "vehicle" (singular), which the exchange path never writes. -/
theorem exchange_then_refresh_404_bug :
    lookupTable (exchangeHandler 1 (some "VALIDCODE")
        (fun _ => ⟨some "AT1", "RT1", some 42⟩) (fun _ => ⟨some ["veh_123"]⟩)
        DB.empty).db.vehicles "veh_123" = some ⟨"AT1", "RT1", 1 + twoHoursMs⟩ ∧
    (refreshHandler 2 (some "veh_123") (fun _ => ⟨"AT2", "RT2"⟩)
        (exchangeHandler 1 (some "VALIDCODE")
          (fun _ => ⟨some "AT1", "RT1", some 42⟩) (fun _ => ⟨some ["veh_123"]⟩)
          DB.empty).db).resp = ⟨404, .errorBody "Vehicle not found"⟩ :=
  ⟨rfl, rfl⟩

/-- Claim C3 (the table-name defect): on the state a successful exchange
leaves behind, the row for veh_123 sits in table "vehicles"; POST
/refresh-token for veh_123 then answers 404 and leaves every stored token
unchanged, instead of exchanging the stored refresh token and replacing the
pair as claimed. -/
theorem refresh_stored_record_404_bug :
    refreshHandler 2 (some "veh_123") (fun _ => ⟨"AT2", "RT2"⟩)
        ⟨[("veh_123", ⟨"AT1", "RT1", 7200001⟩)], []⟩ =
      ⟨⟨404, .errorBody "Vehicle not found"⟩,
       ⟨[("veh_123", ⟨"AT1", "RT1", 7200001⟩)], []⟩⟩ :=
  rfl

/-- On the success path, the database component of the exchange result is the
original state with one upsert applied to the vehicles table. -/
theorem exchangeHandler_db_success (now : Nat) (code : Option String)
    (f : String → AccessResponse) (g : String → VehiclesResponse) (db : DB)
    (v : String) (vs : List String)
    (hc : isFalsy code = false)
    (ha : isFalsy (f (code.getD "")).accessToken = false)
    (hv : (g ((f (code.getD "")).accessToken.getD "")).vehicles = some (v :: vs)) :
    (exchangeHandler now code f g db).db =
      { db with vehicles := (upsert db.vehicles v
        ⟨(f (code.getD "")).accessToken.getD "",
         (f (code.getD "")).refreshToken, now + twoHoursMs⟩) } := by
  simp [exchangeHandler, hc, ha, hv]

/-- Claim C4: upsert idempotence and uniqueness. Starting from a state with at
most one row for the vehicle id, two GET /exchange calls that both resolve to
that id leave exactly one row for it, holding the tokens and the expiry of the
second call; and every state reachable by the service keeps at most one row
per vehicle id in the vehicles table. -/
theorem exchange_upsert_idempotent_unique
    (db : DB) (now1 now2 : Nat) (code1 code2 : Option String)
    (f1 f2 : String → AccessResponse) (g1 g2 : String → VehiclesResponse)
    (v : String) (vs1 vs2 : List String)
    (hdb : countKey db.vehicles v ≤ 1)
    (hc1 : isFalsy code1 = false)
    (ha1 : isFalsy (f1 (code1.getD "")).accessToken = false)
    (hv1 : (g1 ((f1 (code1.getD "")).accessToken.getD "")).vehicles = some (v :: vs1))
    (hc2 : isFalsy code2 = false)
    (ha2 : isFalsy (f2 (code2.getD "")).accessToken = false)
    (hv2 : (g2 ((f2 (code2.getD "")).accessToken.getD "")).vehicles = some (v :: vs2)) :
    countKey (exchangeHandler now2 code2 f2 g2
        (exchangeHandler now1 code1 f1 g1 db).db).db.vehicles v = 1 ∧
    lookupTable (exchangeHandler now2 code2 f2 g2
        (exchangeHandler now1 code1 f1 g1 db).db).db.vehicles v =
      some ⟨(f2 (code2.getD "")).accessToken.getD "",
            (f2 (code2.getD "")).refreshToken, now2 + twoHoursMs⟩ ∧
    (∀ db' : DB, Reachable db' → ∀ k : String, countKey db'.vehicles k ≤ 1) := by
  rw [exchangeHandler_db_success now1 code1 f1 g1 db v vs1 hc1 ha1 hv1,
      exchangeHandler_db_success now2 code2 f2 g2 _ v vs2 hc2 ha2 hv2]
  dsimp only
  exact ⟨countKey_upsert_self _ _ _ (Nat.le_of_eq (countKey_upsert_self _ _ _ hdb)),
         lookupTable_upsert_self _ _ _,
         fun db' h k => reachable_countKey_le_one db' h k⟩

/-- Witness for claim C4 at a concrete pair of calls resolving to the same
vehicle id. -/
theorem exchange_upsert_idempotent_unique_witness :
    countKey (exchangeHandler 5 (some "c2") (fun _ => ⟨some "AT2", "RT2", none⟩)
        (fun _ => ⟨some ["veh"]⟩)
        (exchangeHandler 3 (some "c1") (fun _ => ⟨some "AT1", "RT1", none⟩)
          (fun _ => ⟨some ["veh"]⟩) DB.empty).db).db.vehicles "veh" = 1 ∧
    lookupTable (exchangeHandler 5 (some "c2") (fun _ => ⟨some "AT2", "RT2", none⟩)
        (fun _ => ⟨some ["veh"]⟩)
        (exchangeHandler 3 (some "c1") (fun _ => ⟨some "AT1", "RT1", none⟩)
          (fun _ => ⟨some ["veh"]⟩) DB.empty).db).db.vehicles "veh" =
      some ⟨"AT2", "RT2", 5 + twoHoursMs⟩ ∧
    (∀ db' : DB, Reachable db' → ∀ k : String, countKey db'.vehicles k ≤ 1) :=
  exchange_upsert_idempotent_unique DB.empty 3 5 (some "c1") (some "c2")
    (fun _ => ⟨some "AT1", "RT1", none⟩) (fun _ => ⟨some "AT2", "RT2", none⟩)
    (fun _ => ⟨some ["veh"]⟩) (fun _ => ⟨some ["veh"]⟩) "veh" [] []
    (Nat.zero_le 1) rfl rfl rfl rfl rfl rfl
